import Mathlib

/-
Shallow embedding of the netlist builder in PySpice/Spice/Netlist.py
(Python 2 source).  Python parameter values stored in element slots are
modelled as strings and booleans; assoc lists model Python dicts, with
comments recording where the source relies on unspecified dict iteration
order.
-/

/-- Python value stored in an element's parameter slot (strings cover both
plain strings and the opaque unit values, since `validate` is never invoked
by the descriptor's `__set__` and values are stored raw). -/
inductive PyVal where
  | pstr (s : String)
  | pbool (b : Bool)
deriving DecidableEq, Repr

/-- Python truthiness of a stored value. -/
def truthy : PyVal → Bool
  | PyVal.pstr s => !(s == "")
  | PyVal.pbool b => b

/-- Python str() of an optional stored value; str(None) is "None". -/
def pyStrOpt : Option PyVal → String
  | none => "None"
  | some (PyVal.pstr s) => s
  | some (PyVal.pbool b) => if b then "True" else "False"

/-- Python bool() of an optional value; bool(None) is False. -/
def truthyOpt : Option PyVal → Bool
  | none => false
  | some v => truthy v

/-- Dict lookup on an association list (first binding wins; keys stay unique
because every insertion path checks membership first). -/
def alookup {α : Type} (l : List (String × α)) (k : String) : Option α :=
  (l.find? (fun kv => kv.1 == k)).map (fun kv => kv.2)

/-- Python `key in dict`. -/
def hasKey {α : Type} (l : List (String × α)) (k : String) : Bool :=
  l.any (fun kv => kv.1 == k)

/-- Dict store `d[k] = v`: replace the binding if the key exists, else append. -/
def aset {α : Type} (l : List (String × α)) (k : String) (v : α) : List (String × α) :=
  if hasKey l k then l.map (fun kv => if kv.1 == k then (k, v) else kv) else l ++ [(k, v)]

/-- Python `set.add` modelled on a duplicate-free list that remembers first
insertion order (set iteration order is unspecified in Python; the claims
only exercise singleton or unread sets). -/
def setAdd (l : List String) (x : String) : List String :=
  if l.contains x then l else l ++ [x]

/-- Python `set(xs)` for a list of strings, keeping first occurrences. -/
def dedupIns (l : List String) : List String :=
  l.foldl setAdd []

/-- Kind of a parameter descriptor, mirroring the class hierarchy:
`positional` covers PositionalElementParameter and its subclasses (the
Float/Expression/ElementName/Model positional parameters: their `validate`
methods differ but `validate` is never called by `__set__`, so the stored
behaviour is identical); `keyValue` covers KeyValueParameter and its
Int/Float/FloatPair/Expression subclasses; `flagKey` is FlagKeyParameter;
`boolKey` is BoolKeyParameter. -/
inductive DescKind where
  | positional (position : Nat) (key_parameter : Bool)
  | keyValue (spice_name : String)
  | flagKey (spice_name : String)
  | boolKey (spice_name : String)
deriving DecidableEq, Repr

/-- A parameter descriptor object: `attribute_name` is filled in by the
metaclass from the class-dict key, `default_value` is the constructor's
`default` argument. -/
structure ParamDesc where
  attribute_name : String
  kind : DescKind
  default_value : Option PyVal
deriving DecidableEq, Repr

/-- isinstance(obj, PositionalElementParameter). -/
def isPositionalDesc (d : ParamDesc) : Bool :=
  match d.kind with
  | DescKind.positional _ _ => true
  | _ => false

/-- isinstance(obj, ElementParameter): the key-value, flag and bool key
parameter classes all derive from ElementParameter, which is a sibling of
PositionalElementParameter. -/
def isElementParamDesc (d : ParamDesc) : Bool :=
  match d.kind with
  | DescKind.positional _ _ => false
  | _ => true

/-- The `key_parameter` flag (False for the non-positional kinds, which never
reach the code that reads it). -/
def isKeyParam (d : ParamDesc) : Bool :=
  match d.kind with
  | DescKind.positional _ kp => kp
  | _ => false

/-- The declared `position` index of a positional descriptor. -/
def positionOf (d : ParamDesc) : Nat :=
  match d.kind with
  | DescKind.positional p _ => p
  | _ => 0

/-- An element type as produced by ElementParameterMetaClass.__new__:
`pfx` is the class-level `prefix` attribute and `attributes` is the class
dict in its iteration order.  CPython 2 class bodies are plain dicts, so
this order is unspecified and in particular need not follow the textual
declaration order; it is therefore carried explicitly as an input. -/
structure ElementType where
  pfx : String
  attributes : List (String × ParamDesc)
deriving DecidableEq, Repr

/-- The metaclass's `positional_parameters` OrderedDict (values, in
class-dict iteration order), with `obj.attribute_name = attribute_name`. -/
def positional_parameters (t : ElementType) : List ParamDesc :=
  (t.attributes.filter (fun kv => isPositionalDesc kv.2)).map
    (fun kv => { kv.2 with attribute_name := kv.1 })

/-- The metaclass's `parameters` OrderedDict, stored as
`optional_parameters` on the class. -/
def optional_parameters (t : ElementType) : List ParamDesc :=
  (t.attributes.filter (fun kv => isElementParamDesc kv.2)).map
    (fun kv => { kv.2 with attribute_name := kv.1 })

/-- Python 2 `sorted(positional_parameters.itervalues())` where
`PositionalElementParameter.__cmp__` compares only the `key_parameter`
flags (`cmp(self.key_parameter, other.key_parameter)`).  Python's sort is
stable, so the result is exactly the non-key descriptors in dict order
followed by the key descriptors in dict order; the `position` field is
never consulted. -/
def sortedByKeyParameterFlag (l : List ParamDesc) : List ParamDesc :=
  l.filter (fun d => !(isKeyParam d)) ++ l.filter (fun d => isKeyParam d)

/-- The metaclass's `parameters_from_args` list: the sorted positional
descriptors with the key parameters filtered out. -/
def parameters_from_args (t : ElementType) : List ParamDesc :=
  (sortedByKeyParameterFlag (positional_parameters t)).filter
    (fun d => !(isKeyParam d))

/-- ParameterDescriptor.__get__: return the instance slot `_attribute_name`
if it was ever set, else fall back to `default_value`. -/
def effectiveValue (d : ParamDesc) (values : List (String × PyVal)) : Option PyVal :=
  match alookup values d.attribute_name with
  | some v => some v
  | none => d.default_value

/-- The `nonzero` predicate: the base class tests `is not None`; the flag
and bool key parameter classes override it with `bool(value)`. -/
def nonzeroParam (d : ParamDesc) (values : List (String × PyVal)) : Bool :=
  match d.kind with
  | DescKind.positional _ _ => (effectiveValue d values).isSome
  | DescKind.keyValue _ => (effectiveValue d values).isSome
  | DescKind.flagKey _ => truthyOpt (effectiveValue d values)
  | DescKind.boolKey _ => truthyOpt (effectiveValue d values)

/-- The `to_str` rendering of one parameter.  KeyValueParameter.to_str tests
`bool(self)` — the descriptor object itself, which is always truthy — so it
unconditionally renders `name=value`.  BoolKeyParameter keeps the source's
inverted "0"/"1" mapping; FlagKeyParameter renders "off" when truthy. -/
def paramToStr (d : ParamDesc) (values : List (String × PyVal)) : String :=
  match d.kind with
  | DescKind.positional _ _ => pyStrOpt (effectiveValue d values)
  | DescKind.keyValue sn => sn ++ "=" ++ pyStrOpt (effectiveValue d values)
  | DescKind.flagKey _ => if truthyOpt (effectiveValue d values) then "off" else ""
  | DescKind.boolKey _ => if truthyOpt (effectiveValue d values) then "0" else "1"

/-- A pin: its role name and the node it is bound to (the back-reference to
the owning element is recovered from the element that holds the pin). -/
structure Pin where
  pname : String
  node : String
deriving DecidableEq, Repr

/-- An element instance: its type, bare `_name`, pin list, and the `_X`
instance slots written by the descriptors' `__set__`. -/
structure ElementState where
  etype : ElementType
  ename : String
  pins : List Pin
  values : List (String × PyVal)
deriving DecidableEq, Repr

/-- Element.name: `prefix + _name`. -/
def fullName (e : ElementState) : String := e.etype.pfx ++ e.ename

/-- Element.nodes: the pins' nodes in pin order. -/
def elementNodes (e : ElementState) : List String := e.pins.map (fun p => p.node)

/-- Membership of a keyword among the declared positional or key-value
attribute names. -/
def isDeclaredKey (t : ElementType) (k : String) : Bool :=
  (positional_parameters t).any (fun d => d.attribute_name == k) ||
  (optional_parameters t).any (fun d => d.attribute_name == k)

/-- Element.__init__: `zip(self.parameters_from_args, args)` binds positional
arguments pairwise (zip silently truncates whichever side is longer — there
is no arity check), each through the descriptor's `__set__`.  The kwargs
loop tests `key in self.positional_parameters or self.optional_parameters`,
which by precedence accepts any key once the element has optional
parameters; but for an undeclared key `setattr` then writes a plain
instance attribute that no descriptor ever reads back, so only declared
keys reach the parameter store. -/
def elementInit (t : ElementType) (nm : String) (pins : List Pin)
    (args : List PyVal) (kwargs : List (String × PyVal)) : ElementState :=
  let v1 := (List.zip (parameters_from_args t) args).foldl
    (fun acc pv => aset acc pv.1.attribute_name pv.2) []
  let v2 := kwargs.foldl
    (fun acc kv => if isDeclaredKey t kv.1 then aset acc kv.1 kv.2 else acc) v1
  { etype := t, ename := nm, pins := pins, values := v2 }

/-- TwoPinElement.__init__: pins are (plus, minus) in that order. -/
def twoPinInit (t : ElementType) (nm node_plus node_minus : String)
    (args : List PyVal) : ElementState :=
  elementInit t nm
    [{ pname := "plus", node := node_plus }, { pname := "minus", node := node_minus }]
    args []

/-- Modelled from the spec: the string-joining helper `join_list` from
PySpice.Tools.StringTools is not under src/; per the spec, element-line
fields are space-separated and empty tokens are skipped entirely (no
placeholder), matching the rendered examples such as "R1 1 0 1k". -/
def join_list (items : List String) : String :=
  " ".intercalate (items.filter (fun s => !(s == "")))

/-- Modelled from the spec: the helper `join_lines` from
PySpice.Tools.StringTools is not under src/; per the spec the output is
line-oriented, one item per line with the given directive text prepended,
lines joined by newlines. -/
def join_lines (items : List String) (pfx : String) : String :=
  "\n".intercalate (items.map (fun s => pfx ++ s))

/-- Modelled from the spec: the helper `join_dict` from
PySpice.Tools.StringTools is not under src/; per the spec a model line
renders its parameters as comma-separated `k=v` pairs. -/
def join_dict (d : List (String × String)) : String :=
  ", ".intercalate (d.map (fun kv => kv.1 ++ "=" ++ kv.2))

/-- Element.parameter_iterator: all positional descriptors in class-dict
order, then all key-value descriptors in class-dict order, keeping only
those whose `nonzero` test passes. -/
def parameter_iterator (e : ElementState) : List ParamDesc :=
  (positional_parameters e.etype ++ optional_parameters e.etype).filter
    (fun d => nonzeroParam d e.values)

/-- Element.format_spice_parameters: the surviving parameters' `to_str`
tokens joined by spaces. -/
def format_spice_parameters (e : ElementState) : String :=
  join_list ((parameter_iterator e).map (fun d => paramToStr d e.values))

/-- Element.format_node_names: the composite name followed by the nodes. -/
def format_node_names (e : ElementState) : String :=
  join_list [fullName e, join_list (elementNodes e)]

/-- Element.__str__. -/
def elementStr (e : ElementState) : String :=
  join_list [format_node_names e, format_spice_parameters e]

/-- DeviceModel: a named, typed bag of key/value parameters. -/
structure DeviceModel where
  mname : String
  mtype : String
  mparams : List (String × String)
deriving DecidableEq, Repr

/-- DeviceModel.__str__. -/
def modelStr (m : DeviceModel) : String :=
  ".model " ++ m.mname ++ " " ++ m.mtype ++ " (" ++ join_dict m.mparams ++ ")"

/-- The Python exceptions raised by the embedded code paths.
`nameErrorNodes` is the NameError raised by SubCircuit.check_nodes; it
carries the offending node-name set as a list so the listed names stay
inspectable (the source interpolates the set's repr into the message). -/
inductive PyErr where
  | nameError (msg : String)
  | nameErrorNodes (nodes : List String)
  | indexError (nm : String)
  | typeError
deriving DecidableEq, Repr

/-- Netlist state: `_ground`, the `_elements` and `_models` dicts, the
`_dirty` flag and the `_nodes` cache (node name to the set of connected
element names).  Python 2 plain dicts do not preserve insertion order;
the assoc lists here record insertion order but no theorem below relies on
the iteration order of more than one element. -/
structure NetlistState where
  ground : Option String
  elements : List (String × ElementState)
  models : List (String × DeviceModel)
  dirty : Bool
  nodesCache : List (String × List String)
deriving DecidableEq, Repr

/-- Netlist.__init__: ground None, empty dicts, dirty True. -/
def netlistNew : NetlistState :=
  { ground := none, elements := [], models := [], dirty := true, nodesCache := [] }

/-- Netlist._add_element: raise NameError if the composite name is already
present (before any mutation), else insert and set the dirty flag. -/
def add_element (nl : NetlistState) (e : ElementState) : Except PyErr NetlistState :=
  if hasKey nl.elements (fullName e) then
    Except.error (PyErr.nameError ("Element name " ++ fullName e ++ " is already defined"))
  else
    Except.ok { nl with elements := nl.elements ++ [(fullName e, e)], dirty := true }

/-- Netlist.__str__: the element lines newline-joined plus a trailing
newline, then the model lines likewise if any models exist. -/
def netlistStr (nl : NetlistState) : String :=
  let s := join_lines (nl.elements.map (fun kv => elementStr kv.2)) "" ++ "\n"
  if nl.models.isEmpty then s
  else s ++ join_lines (nl.models.map (fun kv => modelStr kv.2)) "" ++ "\n"

/-- Node.add_element: the node's back-reference set of elements (keyed by
composite element name). -/
def nodeAddElement (ns : List String) (en : String) : List String := setAdd ns en

/-- One step of the node-index rebuild: look up or create the node entry for
`nodeName` and register the element in its back-reference set. -/
def registerPin (cache : List (String × List String)) (nodeName en : String) :
    List (String × List String) :=
  match alookup cache nodeName with
  | none => cache ++ [(nodeName, nodeAddElement [] en)]
  | some ns => aset cache nodeName (nodeAddElement ns en)

/-- The inner loop of the rebuild for one element: register every node of
the element. -/
def rebuildStep (cache : List (String × List String)) (kv : String × ElementState) :
    List (String × List String) :=
  (elementNodes kv.2).foldl (fun c n => registerPin c n kv.1) cache

/-- The full rebuild in the `nodes` property: clear the cache, then for
every element and every node register the element. -/
def rebuildNodes (elements : List (String × ElementState)) :
    List (String × List String) :=
  elements.foldl rebuildStep []

/-- The Netlist.nodes property: when dirty, rebuild the cache from scratch;
return the updated state and the cache entries.  The source never assigns
`self._dirty = False`, so the flag survives the rebuild. -/
def nodesProperty (nl : NetlistState) : NetlistState × List (String × List String) :=
  let nl2 := if nl.dirty then { nl with nodesCache := rebuildNodes nl.elements } else nl
  (nl2, nl2.nodesCache)

/-- Result of Netlist.__getitem__: an element, a model, or — for a node name
found in the cache — the name itself (the source returns `attribute_name`,
not a Node object). -/
inductive GetResult where
  | elementR (e : ElementState)
  | modelR (m : DeviceModel)
  | nodeNameR (nm : String)
deriving DecidableEq, Repr

/-- Netlist.__getitem__: resolve against `_elements`, then `_models`, then
the `_nodes` cache as it currently stands; otherwise raise IndexError. -/
def getitem (nl : NetlistState) (k : String) : Except PyErr GetResult :=
  match alookup nl.elements k with
  | some e => Except.ok (GetResult.elementR e)
  | none =>
    match alookup nl.models k with
    | some m => Except.ok (GetResult.modelR m)
    | none =>
      if hasKey nl.nodesCache k then Except.ok (GetResult.nodeNameR k)
      else Except.error (PyErr.indexError k)

/-- SubCircuit state: the inherited netlist (whose ground defaults to "0"),
the sub-circuit name and the external node list. -/
structure SubCircuitState where
  nl : NetlistState
  scName : String
  external_nodes : List String
deriving DecidableEq, Repr

/-- The accumulation loop of SubCircuit.check_nodes.  Each iteration
evaluates `nodes & element.nodes` — the intersection of a set with a plain
list — which Python rejects with TypeError, so the loop raises on its first
iteration whenever any element is present and only the empty loop
completes (with `connected_nodes` still empty). -/
def connectedNodesLoop : List (String × ElementState) → Except PyErr (List String)
  | [] => Except.ok []
  | _ :: _ => Except.error PyErr.typeError

/-- SubCircuit.check_nodes: build the external-node set, run the
accumulation loop, and raise a NameError listing `nodes - connected_nodes`
when that difference is nonempty. -/
def check_nodes (sc : SubCircuitState) : Except PyErr Unit :=
  let nodes := dedupIns sc.external_nodes
  match connectedNodesLoop sc.nl.elements with
  | Except.error err => Except.error err
  | Except.ok connected =>
    let not_connected := nodes.filter (fun n => !(connected.contains n))
    if not_connected.isEmpty then Except.ok ()
    else Except.error (PyErr.nameErrorNodes not_connected)

/-- SubCircuit.__str__. -/
def subcircuitStr (sc : SubCircuitState) : String :=
  ".subckt " ++ sc.scName ++ " " ++ join_list sc.external_nodes ++ "\n"
    ++ netlistStr sc.nl ++ ".ends\n"

/-- Circuit state: the inherited netlist plus title, global-node set,
include set, `.param` dict and sub-circuit dict. -/
structure CircuitState where
  nl : NetlistState
  title : String
  global_nodes : List String
  includes : List String
  cparams : List (String × String)
  subcircuits : List (String × SubCircuitState)
deriving DecidableEq, Repr

/-- Circuit.__init__. -/
def circuitNew (t : String) (ground : String) (globals0 : List String) : CircuitState :=
  { nl := { netlistNew with ground := some ground }, title := t,
    global_nodes := dedupIns globals0, includes := [], cparams := [], subcircuits := [] }

/-- Circuit.include: `self._includes.add(path)`. -/
def circuitInclude (c : CircuitState) (path : String) : CircuitState :=
  { c with includes := setAdd c.includes path }

/-- Adding an element to a circuit delegates to Netlist._add_element. -/
def circuitAddElement (c : CircuitState) (e : ElementState) : Except PyErr CircuitState :=
  match add_element c.nl e with
  | Except.ok nl2 => Except.ok { c with nl := nl2 }
  | Except.error err => Except.error err

/-- Circuit.__str__: title, then includes, globals and params (each section
omitted when its collection is empty; iterating the `_parameters` dict
yields only its keys, faithfully to the source), then the sub-circuit
renderings, the netlist body, and `.end`. -/
def circuitStr (c : CircuitState) : String :=
  let s1 := ".title " ++ c.title ++ "\n"
  let s2 := if c.includes.isEmpty then "" else join_lines c.includes ".include " ++ "\n"
  let s3 := if c.global_nodes.isEmpty then "" else ".global " ++ join_list c.global_nodes ++ "\n"
  let s4 := if c.cparams.isEmpty then ""
    else join_lines (c.cparams.map (fun kv => kv.1)) ".param " ++ "\n"
  let s5 := if c.subcircuits.isEmpty then ""
    else join_lines (c.subcircuits.map (fun kv => subcircuitStr kv.2)) ""
  s1 ++ s2 ++ s3 ++ s4 ++ s5 ++ netlistStr c.nl ++ ".end\n"

/-- Modelled from the spec: the voltage-source element type used by the
`circuit.V(...)` factory is declared outside this file (the repository's
element library is not under src/); per the spec it is a two-pin source
with SPICE prefix V and a positional value parameter bound first. -/
def voltageSourceType : ElementType :=
  { pfx := "V",
    attributes := [("dc_value",
      { attribute_name := "dc_value", kind := DescKind.positional 0 false,
        default_value := none })] }

/-- Modelled from the spec: the resistor element type is declared outside
this file (the repository's element library is not under src/); per the
spec it is a two-pin element with SPICE prefix R whose single exercised
positional parameter is the resistance at position 0 (rendered examples
"R1 1 0 1k" / "R1 1 0 1000"). -/
def resistorType : ElementType :=
  { pfx := "R",
    attributes := [("resistance",
      { attribute_name := "resistance", kind := DescKind.positional 0 false,
        default_value := none })] }

/-- Modelled from the spec: `circuit.V(name, plus, minus, value)` (the
factory lives outside this file) builds the voltage-source element and
inserts it through Netlist._add_element. -/
def circuitV (nl : NetlistState) (nm node_plus node_minus value : String) :
    Except PyErr NetlistState :=
  add_element nl (twoPinInit voltageSourceType nm node_plus node_minus [PyVal.pstr value])

/-- Pin.add_current_probe: the pin is aliased by its owning element inside
the netlist, so the embedding addresses it by the owner's composite name
and the pin's index and updates the stored element in place, exactly as the
shared mutable Pin object would be updated.  The pin's node is renamed to
"{element_name}_{pin_name}" and `circuit.V(new, old_node, new, '0')` splices
in the zero-valued source. -/
def add_current_probe (nl : NetlistState) (ekey : String) (i : Nat) :
    Except PyErr NetlistState :=
  match alookup nl.elements ekey with
  | none => Except.error (PyErr.indexError ekey)
  | some e =>
    match e.pins.get? i with
    | none => Except.error (PyErr.indexError ekey)
    | some pin =>
      let node := pin.node
      let newNode := fullName e ++ "_" ++ pin.pname
      let e2 := { e with pins := e.pins.set i { pin with node := newNode } }
      let nl2 := { nl with elements := aset nl.elements ekey e2 }
      circuitV nl2 newNode node newNode "0"

/-- An element type whose class dict iterates a position-1 field before a
position-0 field, both non-key: a legitimate input to the metaclass, since
CPython 2 class-body dicts iterate in unspecified (hash) order. -/
def exC1 : ElementType :=
  { pfx := "X",
    attributes :=
      [("b", { attribute_name := "b", kind := DescKind.positional 1 false,
               default_value := none }),
       ("a", { attribute_name := "a", kind := DescKind.positional 0 false,
               default_value := none })] }

/-- An element type with exactly one non-key positional field. -/
def exC2 : ElementType :=
  { pfx := "X",
    attributes := [("r", { attribute_name := "r", kind := DescKind.positional 0 false,
                           default_value := none })] }

/-- An element type with one positional field carrying the non-None default
"5". -/
def exC3 : ElementType :=
  { pfx := "X",
    attributes := [("e0", { attribute_name := "e0", kind := DescKind.positional 0 false,
                            default_value := some (PyVal.pstr "5") })] }

/-- An element of exC3 constructed with no arguments: the field is never
assigned. -/
def eC3 : ElementState := elementInit exC3 "1" [] [] []

/-- A key-value descriptor with default None, used to witness the amended
claim C3. -/
def dC3w : ParamDesc :=
  { attribute_name := "k0", kind := DescKind.keyValue "k0", default_value := none }

/-- An element type with one boolean key parameter. -/
def exC9 : ElementType :=
  { pfx := "X",
    attributes := [("opt0", { attribute_name := "opt0", kind := DescKind.boolKey "opt",
                              default_value := none })] }

/-- The boolean key descriptor of exC9 as the metaclass registers it. -/
def dC9 : ParamDesc :=
  { attribute_name := "opt0", kind := DescKind.boolKey "opt", default_value := none }

/-- An exC9 element whose boolean parameter is stored False. -/
def eC9false : ElementState :=
  { etype := exC9, ename := "1", pins := [], values := [("opt0", PyVal.pbool false)] }

/-- An exC9 element whose boolean parameter is stored True. -/
def eC9true : ElementState :=
  { etype := exC9, ename := "1", pins := [], values := [("opt0", PyVal.pbool true)] }

/-- The resistor R1 between nodes 1 and 0 with value 1k. -/
def rC4 : ElementState := twoPinInit resistorType "1" "1" "0" [PyVal.pstr "1k"]

/-- The claim-C4 circuit before its resistor is added: title "test", one
include "models.lib", one global node "VCC". -/
def cC4base : CircuitState := circuitInclude (circuitNew "test" "0" ["VCC"]) "models.lib"

/-- A netlist already holding R1 (the result of adding rC4 to a fresh
netlist). -/
def nlR1 : NetlistState := { netlistNew with elements := [("R1", rC4)], dirty := true }

/-- The SubCircuit "amp" with external nodes in/out and no elements. -/
def scAmp : SubCircuitState :=
  { nl := { netlistNew with ground := some "0" }, scName := "amp",
    external_nodes := ["in", "out"] }

/-- A resistor connecting the external node "in" to an internal node. -/
def rConn : ElementState := twoPinInit resistorType "1" "in" "x" [PyVal.pstr "1"]

/-- A SubCircuit whose single external node is connected by its one
element: by the claim, check_nodes should return normally here. -/
def scConn : SubCircuitState :=
  { nl := { netlistNew with ground := some "0", elements := [("R1", rConn)], dirty := true },
    scName := "amp2", external_nodes := ["in"] }

/-- The minus pin of rC4 (bound to node 0), as stored at pin index 1. -/
def pinC7 : Pin := { pname := "minus", node := "0" }

/-- The resistor after the current probe rebinds its minus pin to the
synthetic node R1_minus. -/
def rC4probe : ElementState :=
  { rC4 with pins := [{ pname := "plus", node := "1" },
                      { pname := "minus", node := "R1_minus" }] }

/-- The synthetic zero-valued voltage source spliced in by the probe. -/
def srcC7 : ElementState :=
  twoPinInit voltageSourceType "R1_minus" "0" "R1_minus" [PyVal.pstr "0"]

/-- The netlist after add_current_probe on R1's minus pin. -/
def nlC7after : NetlistState :=
  { nlR1 with elements := [("R1", rC4probe), ("VR1_minus", srcC7)], dirty := true }

theorem zip_take_length_eq {α β : Type} (l : List α) (a : List β) :
    List.zip l (List.take l.length a) = List.zip l a := by
  induction l generalizing a with
  | nil => simp
  | cons x xs ih =>
    cases a with
    | nil => simp
    | cons y ys => simp [ih]

theorem hasKey_append {α : Type} (l1 l2 : List (String × α)) (k : String) :
    hasKey (l1 ++ l2) k = (hasKey l1 k || hasKey l2 k) := by
  simp [hasKey, List.any_append]

theorem hasKey_map_keys {α : Type} (l : List (String × α)) (f : String × α → String × α)
    (hf : ∀ kv, (f kv).1 = kv.1) (k : String) :
    hasKey (l.map f) k = hasKey l k := by
  induction l with
  | nil => rfl
  | cons x xs ih =>
    simp only [List.map_cons, hasKey, List.any_cons] at *
    rw [hf x, ih]

theorem hasKey_aset {α : Type} (l : List (String × α)) (m k : String) (v : α) :
    hasKey (aset l m v) k = (hasKey l k || (m == k)) := by
  cases h : hasKey l m with
  | false =>
    have h' : (l.any fun kv => kv.1 == m) = false := h
    simp [aset, hasKey, h', List.any_append]
  | true =>
    have hmap : hasKey (l.map (fun kv => if kv.1 == m then (m, v) else kv)) k
        = hasKey l k := by
      apply hasKey_map_keys
      intro kv
      by_cases hkv : (kv.1 == m) = true
      · simp [hkv, (eq_of_beq hkv).symm]
      · simp [hkv]
    rw [aset, if_pos h, hmap]
    cases hmk : (m == k) with
    | false => simp
    | true =>
      have hmk2 : m = k := eq_of_beq hmk
      subst hmk2
      simp [h]

theorem hasKey_of_alookup_some {α : Type} (l : List (String × α)) (k : String) (v : α)
    (h : alookup l k = some v) : hasKey l k = true := by
  induction l with
  | nil => exact absurd h (by simp [alookup])
  | cons x xs ih =>
    cases hx : (x.1 == k) with
    | true => simp [hasKey, List.any_cons, hx]
    | false =>
      have h2 : alookup xs k = some v := by
        simpa [alookup, List.find?, hx] using h
      have h3 : hasKey xs k = true := ih h2
      simp only [hasKey, List.any_cons, hx, Bool.false_or]
      exact h3

theorem hasKey_registerPin_mono (c : List (String × List String)) (m en k : String)
    (h : hasKey c k = true) : hasKey (registerPin c m en) k = true := by
  unfold registerPin
  cases halo : alookup c m with
  | none => simp [hasKey_append, h]
  | some ns => simp [hasKey_aset, h]

theorem hasKey_registerPin_self (c : List (String × List String)) (m en : String) :
    hasKey (registerPin c m en) m = true := by
  unfold registerPin
  cases halo : alookup c m with
  | none => simp [hasKey_append, hasKey]
  | some ns => simp [hasKey_aset]

theorem hasKey_pinFold_mono (ns : List String) (en k : String)
    (c : List (String × List String)) (h : hasKey c k = true) :
    hasKey (ns.foldl (fun c2 n => registerPin c2 n en) c) k = true := by
  induction ns generalizing c with
  | nil => exact h
  | cons m ms ih => exact ih _ (hasKey_registerPin_mono c m en k h)

theorem hasKey_pinFold_mem (ns : List String) (en k : String)
    (c : List (String × List String)) (h : k ∈ ns) :
    hasKey (ns.foldl (fun c2 n => registerPin c2 n en) c) k = true := by
  induction ns generalizing c with
  | nil => cases h
  | cons m ms ih =>
    rcases List.mem_cons.mp h with h1 | h2
    · subst h1
      exact hasKey_pinFold_mono ms en k _ (hasKey_registerPin_self c k en)
    · exact ih _ h2

theorem hasKey_rebuildStep_mem (c : List (String × List String))
    (kv : String × ElementState) (n : String) (h : n ∈ elementNodes kv.2) :
    hasKey (rebuildStep c kv) n = true :=
  hasKey_pinFold_mem _ _ _ _ h

/-- Claim C1, evaluated at the failing input: for the element type exC1,
whose class dict iterates field b (position 1) before field a (position 0),
`sorted` compares only the key_parameter flags, so parameters_from_args
keeps the dict order [b, a] — positions [1, 0], not ascending — and element
construction binds the first positional argument to b (position 1) and the
second to a (position 0), where the claim requires ascending-position
binding (first argument to a). -/
theorem c1_parameters_from_args_not_position_sorted :
    (parameters_from_args exC1).map positionOf = [1, 0] ∧
    (elementInit exC1 "1" [] [PyVal.pstr "x", PyVal.pstr "y"] []).values
      = [("b", PyVal.pstr "x"), ("a", PyVal.pstr "y")] := by
  constructor
  · rfl
  · rfl

/-- Claim C2 counterexample: for the element type exC2 with exactly one
declared non-key positional field, constructing with two positional
arguments raises nothing — Element.__init__ has no arity check and `zip`
truncates — and yields literally the same element as constructing with one
argument, the extra argument silently ignored. -/
theorem c2_extra_positional_arg_ignored :
    elementInit exC2 "1" [] [PyVal.pstr "a", PyVal.pstr "b"] []
      = elementInit exC2 "1" [] [PyVal.pstr "a"] [] ∧
    (elementInit exC2 "1" [] [PyVal.pstr "a", PyVal.pstr "b"] []).values
      = [("r", PyVal.pstr "a")] := by
  constructor
  · rfl
  · rfl

/-- Claim C2 amended: constructing an Element with more positional
arguments than declared non-key positional fields raises no error; the
extra arguments are silently ignored, so construction coincides with
construction from the first N arguments. -/
theorem c2_amended_truncation (t : ElementType) (nm : String) (pins : List Pin)
    (args : List PyVal) (kwargs : List (String × PyVal)) :
    elementInit t nm pins args kwargs
      = elementInit t nm pins (List.take (parameters_from_args t).length args) kwargs := by
  simp [elementInit, zip_take_length_eq]

/-- Claim C3 counterexample: the element eC3 never assigns its field e0,
which declares the non-None default "5"; format_spice_parameters
nevertheless emits the token "5" (the default's textual form), where the
claim requires the token to be absent. -/
theorem c3_unset_default_rendered :
    alookup eC3.values "e0" = none ∧
    format_spice_parameters eC3 = "5" := by
  constructor
  · rfl
  · rfl

/-- Claim C3 amended: a field never explicitly assigned reads back its
declared default (the descriptor's `__get__` falls back to default_value),
so when the default is None the field fails the nonzero test and emits no
token; a field with a non-None default renders the default's textual form
as if it had been set. -/
theorem c3_amended_default_fallback (e : ElementState) (d : ParamDesc)
    (hunset : alookup e.values d.attribute_name = none) :
    effectiveValue d e.values = d.default_value ∧
    (d.default_value = none → d ∉ parameter_iterator e) := by
  have heff : effectiveValue d e.values = d.default_value := by
    unfold effectiveValue
    rw [hunset]
  refine ⟨heff, fun hnone hmem => ?_⟩
  have hnz : nonzeroParam d e.values = true := by
    unfold parameter_iterator at hmem
    exact (List.mem_filter.mp hmem).2
  have hz : nonzeroParam d e.values = false := by
    cases hk : d.kind <;> simp [nonzeroParam, hk, heff, hnone, truthyOpt]
  rw [hnz] at hz
  exact Bool.noConfusion hz

theorem c3_amended_default_fallback_witness :
    alookup eC3.values dC3w.attribute_name = none ∧
    (effectiveValue dC3w eC3.values = dC3w.default_value ∧
     (dC3w.default_value = none → dC3w ∉ parameter_iterator eC3)) :=
  ⟨rfl, c3_amended_default_fallback eC3 dC3w rfl⟩

/-- Claim C9 counterexample: the element eC9false stores False in its
boolean key parameter; the nonzero filter in parameter_iterator drops the
parameter, so the rendered parameter text is empty — it does not contain
the token "1" the claim requires. -/
theorem c9_false_bool_renders_nothing :
    alookup eC9false.values "opt0" = some (PyVal.pbool false) ∧
    parameter_iterator eC9false = [] ∧
    format_spice_parameters eC9false = "" := by
  refine ⟨rfl, ?_, rfl⟩
  rfl

/-- Claim C9 amended: through the rendering path a boolean key field emits
the token "0" when its effective value is truthy; when falsy it is filtered
out by the nonzero test and emits no token at all — the "1" branch of
BoolKeyParameter.to_str is unreachable from format_spice_parameters. -/
theorem c9_amended_boolkey_render (e : ElementState) (d : ParamDesc) (sn : String)
    (hk : d.kind = DescKind.boolKey sn) (hd : d ∈ optional_parameters e.etype) :
    (truthyOpt (effectiveValue d e.values) = true →
       d ∈ parameter_iterator e ∧ paramToStr d e.values = "0") ∧
    (truthyOpt (effectiveValue d e.values) = false → d ∉ parameter_iterator e) := by
  have hnz : nonzeroParam d e.values = truthyOpt (effectiveValue d e.values) := by
    simp [nonzeroParam, hk]
  constructor
  · intro ht
    constructor
    · unfold parameter_iterator
      exact List.mem_filter.mpr ⟨List.mem_append.mpr (Or.inr hd), by simp [hnz, ht]⟩
    · simp [paramToStr, hk, ht]
  · intro hf hmem
    unfold parameter_iterator at hmem
    have hmem2 : nonzeroParam d e.values = true := (List.mem_filter.mp hmem).2
    rw [hnz, hf] at hmem2
    exact Bool.noConfusion hmem2

theorem c9_amended_boolkey_render_witness :
    dC9.kind = DescKind.boolKey "opt" ∧
    dC9 ∈ optional_parameters eC9true.etype ∧
    truthyOpt (effectiveValue dC9 eC9true.values) = true ∧
    (dC9 ∈ parameter_iterator eC9true ∧ paramToStr dC9 eC9true.values = "0") :=
  ⟨rfl, by decide, rfl,
   (c9_amended_boolkey_render eC9true dC9 "opt" rfl (by decide)).1 rfl⟩

/-- Claim C4: a Circuit with title "test", one include "models.lib", one
global node "VCC" and resistor R1 from node 1 to 0 with value 1k renders
exactly the five newline-terminated lines of the claim; the sections appear
in the fixed order title, includes, globals, netlist body, .end, and the
empty parameter and sub-circuit sections are omitted entirely. -/
theorem c4_circuit_render :
    ∃ c : CircuitState, circuitAddElement cC4base rC4 = Except.ok c ∧
      circuitStr c = ".title test\n.include models.lib\n.global VCC\nR1 1 0 1k\n.end\n" :=
  ⟨_, rfl, rfl⟩

/-- Claim C5: Netlist._add_element raises the duplicate-name NameError when
the composite name is already present — the raise happens before any
mutation, so the pure state the caller holds is untouched — and otherwise
appends the element under its composite name and sets the dirty flag. -/
theorem c5_add_element_duplicate (nl : NetlistState) (e : ElementState) :
    (hasKey nl.elements (fullName e) = true →
       add_element nl e = Except.error
         (PyErr.nameError ("Element name " ++ fullName e ++ " is already defined"))) ∧
    (hasKey nl.elements (fullName e) = false →
       add_element nl e = Except.ok
         { nl with elements := nl.elements ++ [(fullName e, e)], dirty := true }) := by
  constructor
  · intro h
    simp [add_element, h]
  · intro h
    simp [add_element, h]

theorem c5_add_element_duplicate_witness :
    (hasKey nlR1.elements (fullName rC4) = true ∧
     add_element nlR1 rC4 = Except.error
       (PyErr.nameError ("Element name " ++ fullName rC4 ++ " is already defined"))) ∧
    (hasKey netlistNew.elements (fullName rC4) = false ∧
     add_element netlistNew rC4 = Except.ok
       { netlistNew with
         elements := netlistNew.elements ++ [(fullName rC4, rC4)],
         dirty := true }) :=
  ⟨⟨by decide, (c5_add_element_duplicate nlR1 rC4).1 (by decide)⟩,
   ⟨by decide, (c5_add_element_duplicate netlistNew rC4).2 (by decide)⟩⟩

/-- Claim C6, evaluated: with no elements the loop body never runs, so
check_nodes on scAmp raises the unconnected-nodes NameError listing both
external names "in" and "out" exactly as the claim's concrete example says;
but on scConn — whose single external node "in" does appear in its one
element's node list, so the claim requires check_nodes to return normally —
the first loop iteration evaluates `nodes & element.nodes`, a set-with-list
intersection Python rejects, and check_nodes raises TypeError instead. -/
theorem c6_check_nodes_eval :
    check_nodes scAmp = Except.error (PyErr.nameErrorNodes ["in", "out"]) ∧
    check_nodes scConn = Except.error PyErr.typeError := by
  constructor
  · rfl
  · rfl

/-- Claim C8, evaluated: the dirty flag is set on construction and by the
element addition, but the nodes property never assigns it back to False, so
after a first read of the node collection the flag is still set and a
second read (with no intervening insertion) takes the `if self._dirty`
branch and rebuilds again — the claim's "second read finds the flag clear
and does not rebuild" is false on the code. -/
theorem c8_dirty_never_cleared :
    netlistNew.dirty = true ∧
    add_element netlistNew rC4 = Except.ok nlR1 ∧
    ((nodesProperty nlR1).1).dirty = true ∧
    ((nodesProperty nlR1).1).nodesCache = [("1", ["R1"]), ("0", ["R1"])] ∧
    ((nodesProperty (nodesProperty nlR1).1).1).dirty = true := by
  refine ⟨rfl, ?_, rfl, by decide, rfl⟩
  rfl

/-- Claim C7: add_current_probe on the pin at index i of the element stored
under ekey rebinds that pin's node to the synthetic name
"{element_name}_{pin_role}" (updating the element in place) and inserts a
new zero-valued voltage source whose plus terminal is the pin's original
node and whose minus terminal is the synthetic node, provided the new
source's composite name is still free. -/
theorem c7_add_current_probe_spec (nl : NetlistState) (ekey : String) (i : Nat)
    (e : ElementState) (pin : Pin)
    (he : alookup nl.elements ekey = some e)
    (hp : e.pins.get? i = some pin)
    (hfree : hasKey (aset nl.elements ekey
        { e with pins := e.pins.set i { pin with node := fullName e ++ "_" ++ pin.pname } })
        ("V" ++ (fullName e ++ "_" ++ pin.pname)) = false) :
    add_current_probe nl ekey i = Except.ok
      { nl with
        elements :=
          aset nl.elements ekey
            { e with pins := e.pins.set i { pin with node := fullName e ++ "_" ++ pin.pname } }
          ++ [("V" ++ (fullName e ++ "_" ++ pin.pname),
               twoPinInit voltageSourceType (fullName e ++ "_" ++ pin.pname) pin.node
                 (fullName e ++ "_" ++ pin.pname) [PyVal.pstr "0"])],
        dirty := true } := by
  unfold add_current_probe
  simp only [he, hp]
  simp only [circuitV, add_element]
  have hfull : fullName (twoPinInit voltageSourceType (fullName e ++ "_" ++ pin.pname)
      pin.node (fullName e ++ "_" ++ pin.pname) [PyVal.pstr "0"])
      = "V" ++ (fullName e ++ "_" ++ pin.pname) := rfl
  rw [hfull, hfree]
  rfl

theorem c7_add_current_probe_spec_witness :
    alookup nlR1.elements "R1" = some rC4 ∧
    rC4.pins.get? 1 = some pinC7 ∧
    add_current_probe nlR1 "R1" 1 = Except.ok nlC7after ∧
    alookup nlC7after.elements "R1" = some rC4probe ∧
    elementNodes rC4probe = ["1", "R1_minus"] ∧
    alookup nlC7after.elements "VR1_minus" = some srcC7 ∧
    elementNodes srcC7 = ["0", "R1_minus"] ∧
    alookup srcC7.values "dc_value" = some (PyVal.pstr "0") := by
  refine ⟨rfl, rfl, ?_, by decide, by decide, by decide, by decide, by decide⟩
  exact c7_add_current_probe_spec nlR1 "R1" 1 rC4 pinC7 rfl rfl (by decide)

/-- Claim C10: right after an element is added (and before any read of the
node collection has rebuilt the cache), identifier lookup resolves node
names only against the stale cached index: looking up one of the new
element's node names raises IndexError, even though a rebuild of the index
from the stored elements would contain that name. -/
theorem c10_lookup_uses_stale_cache (nl nl' : NetlistState) (e : ElementState) (n : String)
    (hadd : add_element nl e = Except.ok nl')
    (hn : n ∈ elementNodes e)
    (hel : alookup nl'.elements n = none)
    (hmod : alookup nl'.models n = none)
    (hc : hasKey nl.nodesCache n = false) :
    getitem nl' n = Except.error (PyErr.indexError n) ∧
    hasKey (rebuildNodes nl'.elements) n = true := by
  unfold add_element at hadd
  by_cases hk : hasKey nl.elements (fullName e) = true
  · rw [if_pos hk] at hadd
    exact absurd hadd (by simp)
  · rw [if_neg hk] at hadd
    have hadd2 : ({ nl with elements := nl.elements ++ [(fullName e, e)], dirty := true }
        : NetlistState) = nl' := by
      injection hadd
    subst hadd2
    constructor
    · simp [getitem, hel, hmod, hc]
    · show hasKey (rebuildNodes (nl.elements ++ [(fullName e, e)])) n = true
      have hsplit : rebuildNodes (nl.elements ++ [(fullName e, e)])
          = rebuildStep (rebuildNodes nl.elements) (fullName e, e) := by
        simp [rebuildNodes, List.foldl_append]
      rw [hsplit]
      exact hasKey_rebuildStep_mem _ _ _ hn

theorem c10_lookup_uses_stale_cache_witness :
    add_element netlistNew rC4 = Except.ok nlR1 ∧
    "1" ∈ elementNodes rC4 ∧
    alookup nlR1.elements "1" = none ∧
    alookup nlR1.models "1" = none ∧
    hasKey netlistNew.nodesCache "1" = false ∧
    (getitem nlR1 "1" = Except.error (PyErr.indexError "1") ∧
     hasKey (rebuildNodes nlR1.elements) "1" = true) := by
  refine ⟨rfl, by decide, by decide, rfl, rfl, ?_⟩
  exact c10_lookup_uses_stale_cache netlistNew nlR1 rC4 "1" rfl (by decide) (by decide) rfl rfl
